import Mathlib

/-!
Shallow embedding of the supervised-subprocess IPC core of the
`BrowserEnv` class in `openhands/runtime/browser/browser_env.py`.

Pure data and straight-line control flow are translated directly from the
source.  Interaction with the operating system (pipes, processes,
wall-clock time) is made explicit by passing oracles that record what
each primitive would observe: a trace of poll results for the receive
loops, and boolean outcomes for the fallible primitives (for example,
`send` on a closed pipe raises `OSError`).
-/

namespace BrowserEnv

/-- Reserved control-plane action name for fetching the evaluation goal
(source line 39). -/
def BROWSER_EVAL_GET_GOAL_ACTION : String := "GET_EVAL_GOAL"

/-- Reserved control-plane action name for fetching the reward history
(source line 40). -/
def BROWSER_EVAL_GET_REWARDS_ACTION : String := "GET_EVAL_REWARDS"

/-- The fixed poll interval, in seconds, used by the receive loops:
`poll(timeout=0.01)` in `step` (line 229) and in `browser_process`
(line 157). -/
def pollInterval : ℚ := 1 / 100

/-- Payload part of an envelope `(id, payload)` exchanged over the pipe.
The observation and reward values are kept as their serialized forms,
since the payload transformations are opaque to the IPC core. -/
inductive Payload where
  | noneP : Payload
  | actionP (action : String) : Payload
  | obsP (data : String) : Payload
  | goalInfoP (textContent : Option String) (imageContent : List String) : Payload
  | rewardsP (textContent : String) : Payload
deriving DecidableEq

/-- Python exceptions relevant to the embedded methods.  `retryError`
is the tenacity wrapper raised when a retry decorator without
`reraise=True` exhausts its stop condition; it carries the exception of
the final attempt. -/
inductive PyError where
  | attributeError : PyError
  | osError : PyError
  | browserInitException : PyError
  | retryError (inner : PyError) : PyError
deriving DecidableEq

/-- Attribute state of a `BrowserEnv` instance after `__init__` (source
lines 44-63).  `hasAttrs` records whether the branch guarded by
`BROWSERGYM_AVAILABLE` ran, that is, whether the attributes `process`,
`agent_side` and `browser_side` were ever set (they are set together in
that branch and nowhere else). -/
structure BrowserEnvObj where
  evalMode : Bool
  browsergymEvalEnv : Option String
  hasAttrs : Bool
deriving DecidableEq

/-- Python truthiness of the optional `browsergym_eval_env` string:
`None` and the empty string are falsy. -/
def pyTruthy : Option String → Bool
  | none => false
  | some s => !s.isEmpty

/-- Embedding of `BrowserEnv.__init__` (source lines 44-63).
`available` is the module-level flag `BROWSERGYM_AVAILABLE`; `initOk`
abstracts whether the call to `init_browser` in the available branch
succeeds (on exhaustion of its retries a tenacity `RetryError` wrapping
the final `BrowserInitException` escapes the constructor).  The
assignment `self.eval_mode = bool(browsergym_eval_env) and
BROWSERGYM_AVAILABLE` is line 51. -/
def initBrowserEnv (available : Bool) (evalEnv : Option String) (initOk : Bool) :
    Except PyError BrowserEnvObj :=
  if available = true then
    if initOk = true then .ok ⟨pyTruthy evalEnv && available, evalEnv, true⟩
    else .error (.retryError .browserInitException)
  else .ok ⟨pyTruthy evalEnv && available, evalEnv, false⟩

/-- One iteration of the receive loop in `step` (source lines 226-232):
the elapsed time `now` observed by the `time.time() - start_time` check,
the value of the process-wide `should_exit()` flag at that check, and
the envelope delivered by `poll`/`recv` during the iteration (`none`
when the 0.01 s poll expired empty). -/
structure Iter where
  now : ℚ
  shouldExit : Bool
  poll : Option (String × Payload)
deriving DecidableEq

inductive StepResult where
  | success (rid : String) (payload : Payload) : StepResult
  | timeoutError (elapsed : ℚ) : StepResult
  | outOfTrace : StepResult
deriving DecidableEq

/-- Result of the wait loop of `step`, together with the timeout
arguments of the blocking `poll` calls it issued. -/
structure StepRun where
  result : StepResult
  polls : List ℚ
deriving DecidableEq

/-- The wait loop of `BrowserEnv.step` (source lines 226-232): raise
`TimeoutError` as soon as `should_exit()` holds or the elapsed time
exceeds `timeout`; otherwise poll for at most 0.01 s; on a received
envelope, return its payload when the id matches the correlation id of
this call and silently discard the envelope otherwise. -/
def step_wait (uid : String) (timeout : ℚ) : List Iter → StepRun
  | [] => ⟨.outOfTrace, []⟩
  | it :: rest =>
    if it.shouldExit = true ∨ it.now > timeout then ⟨.timeoutError it.now, []⟩
    else
      match it.poll with
      | some (rid, p) =>
        if rid = uid then ⟨.success rid p, [pollInterval]⟩
        else
          ⟨(step_wait uid timeout rest).result,
            pollInterval :: (step_wait uid timeout rest).polls⟩
      | none =>
        ⟨(step_wait uid timeout rest).result,
          pollInterval :: (step_wait uid timeout rest).polls⟩

/-- Embedding of `BrowserEnv.step` (source lines 221-232): reading
`self.agent_side` on an instance whose constructor never set it raises
`AttributeError`; otherwise exactly one request envelope
`(uid, dict with the action)` is sent before the wait loop runs, and the
loop body sends nothing.  Returns the list of sent envelopes and the run
of the wait loop. -/
def step (o : BrowserEnvObj) (uid action : String) (timeout : ℚ) (trace : List Iter) :
    Except PyError (List (String × Payload) × StepRun) :=
  if o.hasAttrs = true then .ok ([(uid, .actionP action)], step_wait uid timeout trace)
  else .error .attributeError

/-- Run of `check_alive`: the outcome (a boolean, or a raised
exception), the envelopes sent, and the timeout arguments of the
blocking `poll` calls issued. -/
structure CheckAliveRun where
  result : Except PyError Bool
  sent : List (String × Payload)
  polls : List ℚ

/-- Embedding of `BrowserEnv.check_alive` (source lines 234-241).
`closed` records whether `agent_side` has already been closed (after a
fully completed `close`, the `send` raises `OSError`); `firstMsg` is the
first envelope available on the pipe within `timeout` seconds, or `none`
when the single blocking `poll(timeout=timeout)` expires empty.  Only
the first received envelope is examined: `True` is returned exactly when
its id is `ALIVE`, and `False` on any other id or on an empty poll. -/
def check_alive (o : BrowserEnvObj) (closed : Bool) (timeout : ℚ)
    (firstMsg : Option (String × Payload)) : CheckAliveRun :=
  if o.hasAttrs = false then ⟨.error .attributeError, [], []⟩
  else if closed = true then ⟨.error .osError, [], []⟩
  else
    match firstMsg with
    | some (rid, _) =>
      if rid = "ALIVE" then ⟨.ok true, [("IS_ALIVE", .noneP)], [timeout]⟩
      else ⟨.ok false, [("IS_ALIVE", .noneP)], [timeout]⟩
    | none => ⟨.ok false, [("IS_ALIVE", .noneP)], [timeout]⟩

/-- Oracle for the primitives used by `BrowserEnv.close`: the initial
`is_alive` check, whether sending the `SHUTDOWN` envelope raises, the
`is_alive` checks performed after the first and the second `join(5)`,
and whether each of the two pipe-end `close()` calls raises.  The `join`,
`terminate` and `kill` primitives are modelled as non-raising. -/
structure CloseWorld where
  alive0 : Bool
  sendOk : Bool
  aliveAfterJoin1 : Bool
  aliveAfterJoin2 : Bool
  agentCloseOk : Bool
  browserCloseOk : Bool
deriving DecidableEq

/-- How a call to `close` ends: a normal return, a normal return after
the `except` clause caught and logged an exception, or an
`AttributeError` propagating from the initial `self.process` access. -/
inductive CloseOutcome where
  | ok : CloseOutcome
  | loggedError : CloseOutcome
  | attrError : CloseOutcome
deriving DecidableEq

structure CloseRun where
  outcome : CloseOutcome
  sentShutdown : Bool
  joinTimeouts : List ℚ
  terminateCalled : Bool
  killCalled : Bool
  agentClosed : Bool
  browserClosed : Bool
deriving DecidableEq

/-- Body of `BrowserEnv.close` after the early-return aliveness check
(source lines 246-261).  The whole escalation ladder and both pipe-end
closes sit inside one `try` block whose `except` clause only logs, so a
primitive that raises causes every later statement of the block to be
skipped while the method still returns normally. -/
def closeBody (w : CloseWorld) : CloseRun :=
  if w.alive0 = false then ⟨.ok, false, [], false, false, false, false⟩
  else if w.sendOk = false then ⟨.loggedError, false, [], false, false, false, false⟩
  else
    if w.agentCloseOk = false then
      ⟨.loggedError, true,
        if w.aliveAfterJoin1 then (if w.aliveAfterJoin2 then [5, 5, 5] else [5, 5]) else [5],
        w.aliveAfterJoin1, w.aliveAfterJoin1 && w.aliveAfterJoin2, false, false⟩
    else if w.browserCloseOk = false then
      ⟨.loggedError, true,
        if w.aliveAfterJoin1 then (if w.aliveAfterJoin2 then [5, 5, 5] else [5, 5]) else [5],
        w.aliveAfterJoin1, w.aliveAfterJoin1 && w.aliveAfterJoin2, true, false⟩
    else
      ⟨.ok, true,
        if w.aliveAfterJoin1 then (if w.aliveAfterJoin2 then [5, 5, 5] else [5, 5]) else [5],
        w.aliveAfterJoin1, w.aliveAfterJoin1 && w.aliveAfterJoin2, true, true⟩

/-- Embedding of `BrowserEnv.close` (source lines 243-261): its first
statement reads `self.process`, which raises `AttributeError` on an
instance whose constructor never set that attribute; when the process is
not alive the method returns immediately without doing anything. -/
def close (o : BrowserEnvObj) (w : CloseWorld) : CloseRun :=
  if o.hasAttrs = false then ⟨.attrError, false, [], false, false, false, false⟩
  else closeBody w

/-- Oracle for the `init_browser` attempts: for each attempt number
(1-based), the result of the `check_alive(timeout=200)` liveness probe,
and the value of the `stop_if_should_exit` tenacity stop condition
consulted after that attempt fails. -/
structure InitWorld where
  aliveProbe : Nat → Bool
  shouldExitAt : Nat → Bool

structure InitRun where
  result : Except PyError Unit
  attempts : Nat
  closeCalls : Nat
  waits : List ℚ
  processAlive : Bool

/-- The tenacity-driven attempt sequence of `BrowserEnv.init_browser`
(source lines 76-92), with the list of attempt numbers still allowed as
the recursion measure.  Each attempt spawns the worker process (spawning
is modelled as succeeding) and probes liveness; on probe failure it
calls `close` — tearing the freshly spawned process down — and raises
`BrowserInitException`.  The decorator then waits a fixed 1 second and
retries, until `stop_after_attempt(5)` or `stop_if_should_exit` fires;
having no `reraise=True`, it then raises a tenacity `RetryError`
wrapping the final exception. -/
def initGo (w : InitWorld) : List Nat → InitRun
  | [] => ⟨.error (.retryError .browserInitException), 0, 0, [], false⟩
  | n :: rest =>
    if w.aliveProbe n = true then ⟨.ok (), 1, 0, [], true⟩
    else if rest.isEmpty || w.shouldExitAt n then
      ⟨.error (.retryError .browserInitException), 1, 1, [], false⟩
    else
      ⟨(initGo w rest).result, (initGo w rest).attempts + 1,
        (initGo w rest).closeCalls + 1, 1 :: (initGo w rest).waits,
        (initGo w rest).processAlive⟩

/-- Embedding of `BrowserEnv.init_browser` under its tenacity decorator
(source lines 76-92): at most 5 attempts. -/
def init_browser (w : InitWorld) : InitRun := initGo w [1, 2, 3, 4, 5]

/-- Worker-held evaluation bookkeeping state of `browser_process`
(source lines 138-140): the goal text, the goal image urls, and the
reward history, with rewards kept as their serialized representations. -/
structure WorkerState where
  evalMode : Bool
  evalGoal : Option String
  goalImageUrls : List String
  evalRewards : List String
deriving DecidableEq

/-- Model of `json.dumps` applied to the reward list (source line 185):
the elements, already in serialized form, joined into a JSON array. -/
def jsonDumps (l : List String) : String :=
  "[" ++ String.intercalate ", " l ++ "]"

/-- One poll cycle of the worker loop (source lines 155-219): the value
of `should_continue()` at the loop head, whether a `KeyboardInterrupt`
arrives during the cycle, and the envelope received (`none` when the
0.01 s poll expired empty). -/
structure WCycle where
  keepRunning : Bool
  interrupt : Bool
  poll : Option (String × Payload)
deriving DecidableEq

inductive WExit where
  | normalExit : WExit
  | shutdownExit : WExit
  | interruptExit : WExit
  | crashExit : WExit
  | outOfTrace : WExit
deriving DecidableEq

structure WRun where
  exit : WExit
  sent : List (String × Payload)
  envClosed : Bool
  envSteps : Nat
  finalState : WorkerState
deriving DecidableEq

/-- The dispatch loop of `BrowserEnv.browser_process` (source lines
155-219), entered once the wrapped environment has been constructed.
`env` maps an action string to the pair of the serialized transformed
observation and the serialized reward produced by `env.step` followed by
the payload transformations; `envSteps` counts its invocations and
`envClosed` records whether `env.close()` was attempted.  A cycle where
`should_continue()` is false exits the loop at its head; a
`KeyboardInterrupt` is caught by the per-iteration handler, which
attempts `env.close()` (swallowing its errors) and returns; a `SHUTDOWN`
envelope closes the environment and returns; an `IS_ALIVE` envelope is
answered with `ALIVE` without touching the environment; the two reserved
evaluation actions are answered from the worker state; any other action
is dispatched to `env`, appending the reward to the history in eval
mode; a payload without an action field raises an uncaught `TypeError`,
crashing the loop. -/
def browser_process (env : String → String × String) (st : WorkerState) :
    List WCycle → WRun
  | [] => ⟨.outOfTrace, [], false, 0, st⟩
  | c :: rest =>
    if c.keepRunning = false then ⟨.normalExit, [], false, 0, st⟩
    else if c.interrupt = true then ⟨.interruptExit, [], true, 0, st⟩
    else
      match c.poll with
      | none => browser_process env st rest
      | some (rid, payload) =>
        if rid = "SHUTDOWN" then ⟨.shutdownExit, [], true, 0, st⟩
        else if rid = "IS_ALIVE" then
          { browser_process env st rest with
            sent := ("ALIVE", .noneP) :: (browser_process env st rest).sent }
        else
          match payload with
          | .actionP a =>
            if a = BROWSER_EVAL_GET_GOAL_ACTION then
              { browser_process env st rest with
                sent := (rid, .goalInfoP st.evalGoal st.goalImageUrls)
                  :: (browser_process env st rest).sent }
            else if a = BROWSER_EVAL_GET_REWARDS_ACTION then
              { browser_process env st rest with
                sent := (rid, .rewardsP (jsonDumps st.evalRewards))
                  :: (browser_process env st rest).sent }
            else
              { browser_process env
                  (if st.evalMode then
                    { st with evalRewards := st.evalRewards ++ [(env a).2] }
                  else st) rest with
                sent := (rid, .obsP (env a).1)
                  :: (browser_process env
                      (if st.evalMode then
                        { st with evalRewards := st.evalRewards ++ [(env a).2] }
                      else st) rest).sent
                envSteps := (browser_process env
                    (if st.evalMode then
                      { st with evalRewards := st.evalRewards ++ [(env a).2] }
                    else st) rest).envSteps + 1 }
          | _ => ⟨.crashExit, [], false, 0, st⟩

/-- A chain of elapsed-time observations made by successive iterations
of the receive loop of `step` advances by at most one poll interval per
iteration (the loop body blocks for at most `poll(timeout=0.01)` plus
negligible bookkeeping). -/
def chain_bounded : ℚ → List Iter → Bool
  | _, [] => true
  | prev, it :: rest =>
    decide (it.now ≤ prev + pollInterval) && chain_bounded it.now rest

/-- C1: a value returned by the wait loop of `BrowserEnv.step` is the
payload of an envelope received during the wait whose id equals the
correlation id of this call; an envelope whose id differs (such as a
late reply to an earlier abandoned call) is consumed and discarded and
can never be returned as this call's result. -/
theorem step_reply_matches_correlation_id
    (uid : String) (timeout : ℚ) (trace : List Iter) (rid : String) (p : Payload)
    (h : (step_wait uid timeout trace).result = .success rid p) :
    rid = uid ∧ ∃ it ∈ trace, it.poll = some (uid, p) := by
  induction trace with
  | nil => simp [step_wait] at h
  | cons it rest ih =>
    by_cases hex : it.shouldExit = true ∨ it.now > timeout
    · simp only [step_wait, if_pos hex] at h
      exact absurd h (by simp)
    · cases hp : it.poll with
      | none =>
        simp only [step_wait, if_neg hex, hp] at h
        obtain ⟨h1, it2, hm, hpoll⟩ := ih h
        exact ⟨h1, it2, List.mem_cons_of_mem _ hm, hpoll⟩
      | some pr =>
        obtain ⟨rid0, p0⟩ := pr
        by_cases he : rid0 = uid
        · simp only [step_wait, if_neg hex, hp, if_pos he] at h
          have hr : rid0 = rid ∧ p0 = p := by
            simpa [StepResult.success.injEq] using h
          refine ⟨by rw [← hr.1, he], it, List.mem_cons_self _ _, ?_⟩
          rw [hp, he, hr.2]
        · simp only [step_wait, if_neg hex, hp, if_neg he] at h
          obtain ⟨h1, it2, hm, hpoll⟩ := ih h
          exact ⟨h1, it2, List.mem_cons_of_mem _ hm, hpoll⟩

/-- Witness for C1 at a concrete trace: a stale envelope arrives first
and is discarded; the reply returned carries the matching id. -/
theorem step_reply_matches_correlation_id_witness :
    ("target" : String) = "target"
    ∧ ∃ it ∈ [(⟨0, false, some ("stale", Payload.noneP)⟩ : Iter),
        ⟨1 / 100, false, some ("target", Payload.obsP "obs")⟩],
        it.poll = some ("target", Payload.obsP "obs") :=
  step_reply_matches_correlation_id "target" 1
    [⟨0, false, some ("stale", .noneP)⟩, ⟨1 / 100, false, some ("target", .obsP "obs")⟩]
    "target" (.obsP "obs") (by norm_num [step_wait]; decide)

theorem step_wait_timeout_bound_aux (uid : String) (timeout : ℚ) :
    ∀ (trace : List Iter) (prev : ℚ),
      chain_bounded prev trace = true → prev ≤ timeout →
      (∀ it ∈ trace, ∀ rid p, it.poll = some (rid, p) → rid ≠ uid) →
      (∃ it ∈ trace, it.shouldExit = true ∨ it.now > timeout) →
      ∃ t, (step_wait uid timeout trace).result = .timeoutError t
        ∧ t ≤ timeout + pollInterval := by
  intro trace
  induction trace with
  | nil => intro prev _ _ _ htr; simp at htr
  | cons it rest ih =>
    intro prev hch hle hnm htr
    simp only [chain_bounded, Bool.and_eq_true, decide_eq_true_eq] at hch
    obtain ⟨hnow, hch2⟩ := hch
    by_cases hex : it.shouldExit = true ∨ it.now > timeout
    · refine ⟨it.now, ?_, ?_⟩
      · simp only [step_wait, if_pos hex]
      · calc it.now ≤ prev + pollInterval := hnow
          _ ≤ timeout + pollInterval := by linarith
    · have hnow2 : it.now ≤ timeout := by
        rcases not_or.mp hex with ⟨_, h2⟩
        exact not_lt.mp h2
      have htr2 : ∃ it2 ∈ rest, it2.shouldExit = true ∨ it2.now > timeout := by
        obtain ⟨it2, hm, hcond⟩ := htr
        rcases List.mem_cons.mp hm with he | hm2
        · subst he; exact absurd hcond hex
        · exact ⟨it2, hm2, hcond⟩
      have hnm2 : ∀ it2 ∈ rest, ∀ rid p, it2.poll = some (rid, p) → rid ≠ uid :=
        fun it2 hm => hnm it2 (List.mem_cons_of_mem _ hm)
      obtain ⟨t, hres, hbound⟩ := ih it.now hch2 hnow2 hnm2 htr2
      refine ⟨t, ?_, hbound⟩
      cases hp : it.poll with
      | none => simp only [step_wait, if_neg hex, hp]; exact hres
      | some pr =>
        obtain ⟨rid0, p0⟩ := pr
        have hne : rid0 ≠ uid := hnm it (List.mem_cons_self _ _) rid0 p0 hp
        simp only [step_wait, if_neg hex, hp, if_neg hne]
        exact hres

/-- C2: when no envelope carrying the matching correlation id arrives
and either the elapsed time exceeds the timeout or the process-wide
cancellation flag `should_exit` is observed, `step` raises
`TimeoutError`; the only envelope it ever sends is the single initial
request, and — given that each loop iteration advances elapsed time by
at most one poll interval — the failure occurs no later than the
deadline plus one poll interval, so the wait never extends past that
bounded margin. -/
theorem step_times_out_within_margin
    (o : BrowserEnvObj) (uid a : String) (timeout : ℚ) (trace : List Iter)
    (hA : o.hasAttrs = true) (h0 : 0 ≤ timeout)
    (hch : chain_bounded 0 trace = true)
    (hnm : ∀ it ∈ trace, ∀ rid p, it.poll = some (rid, p) → rid ≠ uid)
    (htr : ∃ it ∈ trace, it.shouldExit = true ∨ it.now > timeout) :
    ∃ sends run, step o uid a timeout trace = .ok (sends, run)
      ∧ sends = [(uid, .actionP a)]
      ∧ ∃ t, run.result = .timeoutError t ∧ t ≤ timeout + pollInterval := by
  obtain ⟨t, hres, hb⟩ := step_wait_timeout_bound_aux uid timeout trace 0 hch h0 hnm htr
  exact ⟨_, _, by simp [step, hA], rfl, t, hres, hb⟩

/-- Witness for C2 at a concrete trace where no reply ever arrives and
the second time check exceeds the 0.01 s timeout. -/
theorem step_times_out_within_margin_witness :
    ∃ sends run,
      step ⟨false, none, true⟩ "u" "noop" (1 / 100)
          [⟨1 / 100, false, none⟩, ⟨2 / 100, false, none⟩] = .ok (sends, run)
        ∧ sends = [("u", Payload.actionP "noop")]
        ∧ ∃ t, run.result = .timeoutError t ∧ t ≤ 1 / 100 + pollInterval :=
  step_times_out_within_margin ⟨false, none, true⟩ "u" "noop" (1 / 100)
    [⟨1 / 100, false, none⟩, ⟨2 / 100, false, none⟩] rfl (by norm_num)
    (by norm_num [chain_bounded, pollInterval])
    (by
      intro it hit rid p hp
      rcases List.mem_cons.mp hit with he | hm
      · subst he; simp at hp
      · rcases List.mem_cons.mp hm with he2 | hm2
        · subst he2; simp at hp
        · simp at hm2)
    ⟨⟨2 / 100, false, none⟩, List.mem_cons_of_mem _ (List.mem_cons_self _ _),
      Or.inr (by norm_num)⟩

/-- Counterexample for C3: with the process observed alive, an exception
raised while sending the `SHUTDOWN` envelope is caught by the single
`except` clause wrapping the whole ladder, so `terminate` and `kill`
never run and neither pipe end is closed. -/
theorem close_send_exception_skips_ladder :
    (close ⟨false, none, true⟩ ⟨true, false, true, true, true, true⟩).outcome = .loggedError
    ∧ (close ⟨false, none, true⟩ ⟨true, false, true, true, true, true⟩).terminateCalled = false
    ∧ (close ⟨false, none, true⟩ ⟨true, false, true, true, true, true⟩).killCalled = false
    ∧ (close ⟨false, none, true⟩ ⟨true, false, true, true, true, true⟩).agentClosed = false
    ∧ (close ⟨false, none, true⟩ ⟨true, false, true, true, true, true⟩).browserClosed = false := by
  refine ⟨rfl, rfl, rfl, rfl, rfl⟩

/-- C3 amended: `close` never propagates an error from the shutdown path
(the `except` clause swallows and logs it), and when no primitive in
that path raises, the escalation ladder runs to completion — `terminate`
exactly when the process survives the first join, `kill` exactly when it
also survives the second — and both channel ends are closed; an
exception raised earlier in the path skips the remaining steps. -/
theorem close_ladder_runs_when_no_exception :
    (∀ em ee w, (close ⟨em, ee, true⟩ w).outcome = .ok
        ∨ (close ⟨em, ee, true⟩ w).outcome = .loggedError)
    ∧ (∀ em ee j1 j2,
        (close ⟨em, ee, true⟩ ⟨true, true, j1, j2, true, true⟩).terminateCalled = j1
        ∧ (close ⟨em, ee, true⟩ ⟨true, true, j1, j2, true, true⟩).killCalled = (j1 && j2)
        ∧ (close ⟨em, ee, true⟩ ⟨true, true, j1, j2, true, true⟩).agentClosed = true
        ∧ (close ⟨em, ee, true⟩ ⟨true, true, j1, j2, true, true⟩).browserClosed = true) := by
  constructor
  · intro em ee w
    rcases w with ⟨a0, s0, j1, j2, ac, bc⟩
    cases a0 <;> cases s0 <;> cases j1 <;> cases j2 <;> cases ac <;> cases bc <;>
      simp [close, closeBody]
  · intro em ee j1 j2
    cases j1 <;> cases j2 <;> simp [close, closeBody]

/-- Counterexample for C4: a constructor run with the environment
library unavailable never sets the `process` attribute, and `close` on
such an instance raises `AttributeError` instead of returning without
error. -/
theorem close_unavailable_raises_attribute_error :
    initBrowserEnv false (some "webarena") true = .ok ⟨false, some "webarena", false⟩
    ∧ (close ⟨false, some "webarena", false⟩
        ⟨false, true, false, false, true, true⟩).outcome = .attrError
    ∧ CloseOutcome.attrError ≠ CloseOutcome.ok :=
  ⟨rfl, rfl, by decide⟩

/-- C4 amended: on an instance whose `process` attribute exists, `close`
with the process not running returns immediately without error and
without doing anything, so a second consecutive call — the process being
dead after a completed first call — is likewise a no-op. -/
theorem close_immediate_when_not_running :
    ∀ em ee s0 j1 j2 ac bc,
      close ⟨em, ee, true⟩ ⟨false, s0, j1, j2, ac, bc⟩ =
        ⟨.ok, false, [], false, false, false, false⟩ := by
  intro em ee s0 j1 j2 ac bc
  simp [close, closeBody]

/-- Counterexample for C5: on exhaustion of the five attempts the
exception leaving `init_browser` is the tenacity `RetryError` wrapping
the final `BrowserInitException` — the decorator has no `reraise=True` —
and not a `BrowserInitException` itself. -/
theorem init_browser_exhaustion_raises_retry_error :
    (init_browser ⟨fun _ => false, fun _ => false⟩).result
      = .error (.retryError .browserInitException)
    ∧ (Except.error (PyError.retryError .browserInitException) : Except PyError Unit)
      ≠ .error .browserInitException := by
  refine ⟨rfl, ?_⟩
  intro h
  exact PyError.noConfusion (Except.error.inj h)

/-- C5 amended: when every liveness probe fails and no external shutdown
is requested, `init_browser` makes exactly 5 attempts separated by fixed
1-second waits, calls `close` on each failed attempt — tearing down the
partially started process before the retry or the final failure — and on
exhaustion fails with tenacity `RetryError` wrapping the final
`BrowserInitException`, leaving no worker process alive. -/
theorem init_browser_retries_five_then_fails (w : InitWorld)
    (hp : ∀ n, w.aliveProbe n = false) (hs : ∀ n, w.shouldExitAt n = false) :
    init_browser w =
      ⟨.error (.retryError .browserInitException), 5, 5, [1, 1, 1, 1], false⟩ := by
  simp [init_browser, initGo, hp, hs]

/-- Witness for C5 at the concrete oracle where every probe fails. -/
theorem init_browser_retries_five_then_fails_witness :
    init_browser ⟨fun _ => false, fun _ => false⟩ =
      ⟨.error (.retryError .browserInitException), 5, 5, [1, 1, 1, 1], false⟩ :=
  init_browser_retries_five_then_fails ⟨fun _ => false, fun _ => false⟩
    (fun _ => rfl) (fun _ => rfl)

/-- Counterexample for C6: `check_alive` performs one single blocking
`poll` whose timeout argument is the full user timeout (here 60 s),
not a sequence of short 0.01 s polls, so a cancellation signal cannot
pre-empt this wait within one poll interval. -/
theorem check_alive_full_timeout_single_block :
    (check_alive ⟨false, none, true⟩ false 60 none).polls = [60]
    ∧ ¬ ((60 : ℚ) ≤ pollInterval) := by
  refine ⟨rfl, ?_⟩
  norm_num [pollInterval]

/-- C6 amended: only the wait loop of `step` polls in slices of the
fixed 0.01 s interval (re-checking the cancellation flag between
slices); `check_alive` — and hence the liveness probe of `start`, which
calls it with timeout 200 — issues one single blocking poll for the full
timeout, and the joins of `close` each block for the full 5-second grace
period. -/
theorem supervisor_wait_block_structure :
    (∀ uid timeout trace,
        ((step_wait uid timeout trace).polls.all fun q => decide (q = pollInterval)) = true)
    ∧ (∀ em ee timeout msg, (check_alive ⟨em, ee, true⟩ false timeout msg).polls = [timeout])
    ∧ (∀ em ee w,
        (((close ⟨em, ee, true⟩ w).joinTimeouts).all fun j => decide (j = (5 : ℚ))) = true) := by
  refine ⟨?_, ?_, ?_⟩
  · intro uid timeout trace
    induction trace with
    | nil => rfl
    | cons it rest ih =>
      by_cases hex : it.shouldExit = true ∨ it.now > timeout
      · simp [step_wait, if_pos hex]
      · cases hp : it.poll with
        | none =>
          simp only [step_wait, if_neg hex, hp, List.all_cons, Bool.and_eq_true,
            decide_eq_true_eq]
          exact ⟨trivial, ih⟩
        | some pr =>
          obtain ⟨rid0, p0⟩ := pr
          by_cases he : rid0 = uid
          · simp [step_wait, if_neg hex, hp, if_pos he]
          · simp only [step_wait, if_neg hex, hp, if_neg he, List.all_cons,
              Bool.and_eq_true, decide_eq_true_eq]
            exact ⟨trivial, ih⟩
  · intro em ee timeout msg
    cases msg with
    | none => rfl
    | some pr =>
      obtain ⟨rid, p⟩ := pr
      by_cases he : rid = "ALIVE"
      · simp [check_alive, if_pos he]
      · simp [check_alive, if_neg he]
  · intro em ee w
    rcases w with ⟨a0, s0, j1, j2, ac, bc⟩
    cases a0 <;> cases s0 <;> cases j1 <;> cases j2 <;> cases ac <;> cases bc <;>
      simp [close, closeBody]

/-- Counterexample for C7: after a completed `close` — the graceful
shutdown succeeded and both pipe ends were closed — `check_alive` raises
`OSError` from the `send` on the closed pipe instead of deterministically
returning false. -/
theorem check_alive_after_completed_close_raises :
    (close ⟨false, none, true⟩ ⟨true, true, false, false, true, true⟩).outcome = .ok
    ∧ (close ⟨false, none, true⟩ ⟨true, true, false, false, true, true⟩).agentClosed = true
    ∧ (check_alive ⟨false, none, true⟩ true 60 none).result = .error .osError
    ∧ (Except.error PyError.osError : Except PyError Bool) ≠ .ok false := by
  refine ⟨rfl, rfl, rfl, ?_⟩
  intro h
  exact Except.noConfusion h

/-- C7 amended: on an open channel, `check_alive` sends the `IS_ALIVE`
envelope and returns true exactly when the first envelope received
within the timeout carries the reply id `ALIVE`; it returns false when
the poll expires empty and when the first envelope carries any other id;
once `stop` has completed and closed the channel ends, `check_alive`
raises `OSError` from the `send` on the closed pipe rather than
returning false. -/
theorem check_alive_reply_semantics (em : Bool) (ee : Option String) (timeout : ℚ)
    (msg : Option (String × Payload)) :
    ((check_alive ⟨em, ee, true⟩ false timeout msg).result = .ok true
        ↔ ∃ p, msg = some ("ALIVE", p))
    ∧ (check_alive ⟨em, ee, true⟩ false timeout msg).sent = [("IS_ALIVE", .noneP)]
    ∧ (check_alive ⟨em, ee, true⟩ false timeout none).result = .ok false
    ∧ (∀ rid p, rid ≠ "ALIVE" →
        (check_alive ⟨em, ee, true⟩ false timeout (some (rid, p))).result = .ok false)
    ∧ (∀ msg2, (check_alive ⟨em, ee, true⟩ true timeout msg2).result = .error .osError) := by
  refine ⟨?_, ?_, rfl, ?_, fun msg2 => rfl⟩
  · cases msg with
    | none => simp [check_alive]
    | some pr =>
      obtain ⟨rid, p⟩ := pr
      by_cases he : rid = "ALIVE"
      · subst he
        simp [check_alive]
      · simp [check_alive, if_neg he, he]
  · cases msg with
    | none => rfl
    | some pr =>
      obtain ⟨rid, p⟩ := pr
      by_cases he : rid = "ALIVE"
      · simp [check_alive, if_pos he]
      · simp [check_alive, if_neg he]
  · intro rid p hne
    simp [check_alive, if_neg hne]

/-- Witness for C7: a stale first envelope makes `check_alive` return
false on an open channel. -/
theorem check_alive_reply_semantics_witness :
    (check_alive ⟨false, none, true⟩ false 60 (some ("stale-id", Payload.noneP))).result
      = .ok false :=
  (check_alive_reply_semantics false none 60 (some ("stale-id", Payload.noneP))).2.2.2.1
    "stale-id" Payload.noneP (by decide)

/-- Counterexample for C8: when the keep-running predicate
`should_continue` turns false, the worker loop simply exits at its head
without attempting `env.close`, which runs only on a `SHUTDOWN` envelope
or on a `KeyboardInterrupt`. -/
theorem worker_stop_predicate_skips_env_close :
    (browser_process (fun a => (a, "0.0")) ⟨false, none, [], []⟩
        [⟨false, false, none⟩]).envClosed = false
    ∧ (browser_process (fun a => (a, "0.0")) ⟨false, none, [], []⟩
        [⟨false, false, none⟩]).exit = .normalExit :=
  ⟨rfl, rfl⟩

/-- C8 amended: a `KeyboardInterrupt` during a cycle makes the worker
attempt a best-effort `env.close` and exit the loop, never hanging;
the keep-running predicate becoming false exits the loop without
releasing the environment. -/
theorem worker_interrupt_closes_env (env : String → String × String)
    (st : WorkerState) (itp : Option (String × Payload)) (rest : List WCycle) :
    browser_process env st (⟨true, true, itp⟩ :: rest) = ⟨.interruptExit, [], true, 0, st⟩
    ∧ ∀ ib, browser_process env st (⟨false, ib, itp⟩ :: rest)
        = ⟨.normalExit, [], false, 0, st⟩ := by
  exact ⟨rfl, fun ib => rfl⟩

/-- C9: the worker loop answers the two reserved evaluation actions
directly from its held state — the goal text and image urls for one, the
JSON-serialized reward history for the other — without invoking the
wrapped environment and without modifying the evaluation state, and then
continues the loop on the remaining cycles. -/
theorem worker_eval_actions_bypass_env (env : String → String × String)
    (st : WorkerState) (rid : String) (rest : List WCycle)
    (h1 : rid ≠ "SHUTDOWN") (h2 : rid ≠ "IS_ALIVE") :
    browser_process env st
        (⟨true, false, some (rid, .actionP BROWSER_EVAL_GET_GOAL_ACTION)⟩ :: rest)
      = { browser_process env st rest with
          sent := (rid, .goalInfoP st.evalGoal st.goalImageUrls)
            :: (browser_process env st rest).sent }
    ∧ browser_process env st
        (⟨true, false, some (rid, .actionP BROWSER_EVAL_GET_REWARDS_ACTION)⟩ :: rest)
      = { browser_process env st rest with
          sent := (rid, .rewardsP (jsonDumps st.evalRewards))
            :: (browser_process env st rest).sent } := by
  constructor
  · simp only [browser_process, if_neg h1, if_neg h2]
    norm_num
  · simp only [browser_process, if_neg h1, if_neg h2,
      if_neg (show ¬ (BROWSER_EVAL_GET_REWARDS_ACTION = BROWSER_EVAL_GET_GOAL_ACTION)
        by decide),
      eq_self_iff_true, if_true]
    rfl

/-- Witness for C9 at a concrete worker state and request id. -/
theorem worker_eval_actions_bypass_env_witness :
    browser_process (fun a => (a, "1.0")) ⟨true, some "g", ["img"], ["0.5"]⟩
        [⟨true, false, some ("req-1", .actionP BROWSER_EVAL_GET_GOAL_ACTION)⟩]
      = { browser_process (fun a => (a, "1.0")) ⟨true, some "g", ["img"], ["0.5"]⟩ [] with
          sent := ("req-1",
              .goalInfoP (⟨true, some "g", ["img"], ["0.5"]⟩ : WorkerState).evalGoal
                (⟨true, some "g", ["img"], ["0.5"]⟩ : WorkerState).goalImageUrls)
            :: (browser_process (fun a => (a, "1.0"))
                ⟨true, some "g", ["img"], ["0.5"]⟩ []).sent }
    ∧ browser_process (fun a => (a, "1.0")) ⟨true, some "g", ["img"], ["0.5"]⟩
        [⟨true, false, some ("req-1", .actionP BROWSER_EVAL_GET_REWARDS_ACTION)⟩]
      = { browser_process (fun a => (a, "1.0")) ⟨true, some "g", ["img"], ["0.5"]⟩ [] with
          sent := ("req-1",
              .rewardsP (jsonDumps
                (⟨true, some "g", ["img"], ["0.5"]⟩ : WorkerState).evalRewards))
            :: (browser_process (fun a => (a, "1.0"))
                ⟨true, some "g", ["img"], ["0.5"]⟩ []).sent } :=
  worker_eval_actions_bypass_env (fun a => (a, "1.0")) ⟨true, some "g", ["img"], ["0.5"]⟩
    "req-1" [] (by decide) (by decide)

/-- C10: with the environment library unavailable, the constructor
completes without error, forces `eval_mode` off even when an evaluation
environment id was supplied, and sets none of the `process`,
`agent_side`, `browser_side` attributes; `step`, `check_alive` and
`close` on such an instance all raise `AttributeError`. -/
theorem unavailable_init_disables_browser (evalEnv : Option String) (initOk : Bool)
    (uid a : String) (tmo : ℚ) (trace : List Iter) (closed : Bool) (tmo2 : ℚ)
    (msg : Option (String × Payload)) (w : CloseWorld) :
    initBrowserEnv false evalEnv initOk = .ok ⟨false, evalEnv, false⟩
    ∧ step ⟨false, evalEnv, false⟩ uid a tmo trace = .error .attributeError
    ∧ (check_alive ⟨false, evalEnv, false⟩ closed tmo2 msg).result = .error .attributeError
    ∧ (close ⟨false, evalEnv, false⟩ w).outcome = .attrError := by
  refine ⟨?_, rfl, rfl, rfl⟩
  simp [initBrowserEnv]

end BrowserEnv
